import Mathlib

/-!
Shallow embedding of `src/useFetchOnScroll.ts` (react-granular-infinite-scroll).

The hook consists of three cooperating pieces:
  * `getTriggerPointValue` — the pure trigger-index lookup table;
  * the body of `useFetchOnScroll` — resolution of `itemRefIndex`,
    `fallBackRefIndex`, and the observer-aliasing condition;
  * `fetchOnScroll` — the intersection callback, a state transition on the
    mutable cell `lastItemIndex` that may invoke `fetchNext`;
  * `useIntersectionObserver` — the attachment-handle factory managing one
    IntersectionObserver per slot.

JS numbers are modelled as ℚ (the constants 0.5 and 0.75 are exact binary
floats, so float and rational semantics agree on every value used here);
`parseInt` failure (NaN) is modelled as `none`, and a JS strict equality
`NaN === x` is `none = some x`, which is false, exactly as in JS.
-/

/-- The `TriggerPoint` string-literal union type from the source. -/
inductive TriggerPoint where
  | fifty
  | seventyFive
  | hundred
deriving DecidableEq, Repr

/-- The `FetchOnScrollProps` options record. `none` models an absent
(`undefined`) optional field; defaulting (`fetchMore = true`,
`triggerPoint = "100%"`) happens at destructuring, modelled by `getD`
in the definitions below. `triggerIndex` is a JS number, kept as ℚ. -/
structure FetchOnScrollProps where
  fetchMore : Option Bool := none
  numberOfItems : ℕ
  threshold : Option ℚ := none
  rootMargin : Option String := none
  triggerPoint : Option TriggerPoint := none
  triggerIndex : Option ℚ := none
deriving Repr

/-- `getTriggerPointValue`: the fixed lookup table
`50% -> Math.floor(numberOfItems * 0.5)`,
`75% -> Math.floor(numberOfItems * 0.75)`, `100% -> numberOfItems - 1`. -/
def getTriggerPointValue (triggerPoint : TriggerPoint) (numberOfItems : ℕ) : ℤ :=
  match triggerPoint with
  | .fifty => Int.floor ((numberOfItems : ℚ) * 0.5)
  | .seventyFive => Int.floor ((numberOfItems : ℚ) * 0.75)
  | .hundred => (numberOfItems : ℤ) - 1

/-- JS truthiness of the optional numeric `triggerIndex`:
`undefined` and `0` are falsy, every other number is truthy
(NaN, also falsy, is outside the model; the prop is documented
as an integer index). -/
def truthyNum : Option ℚ → Bool
  | none => false
  | some t => decide (t ≠ 0)

/-- JS truthiness of the (defaulted) `triggerPoint`: all three member
strings are non-empty, hence truthy. -/
def tpTruthy : TriggerPoint → Bool := fun _ => true

/-- `fallBackRefIndex = numberOfItems - 1`. -/
def fallBackRefIndex (p : FetchOnScrollProps) : ℤ :=
  (p.numberOfItems : ℤ) - 1

/-- The resolved `itemRefIndex`: the memoized
`getTriggerPointValue(triggerPoint, numberOfItems)` overwritten by
`Math.floor(triggerIndex)` when `if (triggerIndex)` holds. -/
def resolveItemRefIndex (p : FetchOnScrollProps) : ℤ :=
  let base := getTriggerPointValue (p.triggerPoint.getD .hundred) p.numberOfItems
  match p.triggerIndex with
  | some t => if t ≠ 0 then Int.floor t else base
  | none => base

/-- The aliasing condition under which `ItemObserver` is reassigned to
`fallbackObserver`:
`triggerPoint === "100%" || triggerIndex === fallBackRefIndex ||
 (!triggerPoint && !triggerIndex)`.
`triggerIndex === fallBackRefIndex` is JS strict number equality on the
raw (unfloored) `triggerIndex`; `undefined === n` is false. -/
def sharesObserver (p : FetchOnScrollProps) : Bool :=
  let triggerPoint := p.triggerPoint.getD .hundred
  (triggerPoint == TriggerPoint.hundred)
    || (match p.triggerIndex with
        | some t => decide (t = ((fallBackRefIndex p : ℤ) : ℚ))
        | none => false)
    || (!tpTruthy triggerPoint && !truthyNum p.triggerIndex)

/-- Numeric value of a decimal or hexadecimal digit character. -/
def digitVal (c : Char) : ℕ :=
  if c.isDigit then c.toNat - '0'.toNat
  else if 'a' ≤ c ∧ c ≤ 'f' then c.toNat - 'a'.toNat + 10
  else if 'A' ≤ c ∧ c ≤ 'F' then c.toNat - 'A'.toNat + 10
  else 0

/-- Whether `c` is a digit of the given radix (only 10 and 16 arise). -/
def isRadixDigit (radix : ℕ) (c : Char) : Bool :=
  if radix = 16 then c.isDigit || ('a' ≤ c && c ≤ 'f') || ('A' ≤ c && c ≤ 'F')
  else c.isDigit

/-- JS `parseInt(s)` with no radix argument: skip leading whitespace,
read an optional sign, switch to base 16 on a `0x`/`0X` head, then take
the longest run of radix digits; no digits yields NaN (`none`). -/
def parseIntJS (s : String) : Option ℤ :=
  let cs0 := s.toList.dropWhile (fun c => c.isWhitespace)
  let signAndRest : ℤ × List Char :=
    match cs0 with
    | '-' :: rest => (-1, rest)
    | '+' :: rest => (1, rest)
    | _ => (1, cs0)
  let radixAndRest : ℕ × List Char :=
    match signAndRest.2 with
    | '0' :: 'x' :: rest => (16, rest)
    | '0' :: 'X' :: rest => (16, rest)
    | cs => (10, cs)
  let ds := radixAndRest.2.takeWhile (isRadixDigit radixAndRest.1)
  if ds.isEmpty then none
  else some (signAndRest.1 *
    (ds.foldl (fun acc c => acc * radixAndRest.1 + digitVal c) 0 : ℕ))

/-- One `IntersectionObserverEntry` as far as the handler reads it:
its `isIntersecting` flag and the `data-id` attribute of its target
(`none` when `getAttribute` returns `null`). -/
structure IntersectionEntry where
  isIntersecting : Bool
  dataId : Option String
deriving Repr

/-- `getAttribute(...) as string` fed to `parseInt`: a `null` attribute is
coerced by `parseInt` to the string `"null"`, which parses to NaN. -/
def attrString : Option String → String
  | none => "null"
  | some s => s

/-- `parseInt(entries[0].target.getAttribute("data-id") as string)`. -/
def entryId (e : IntersectionEntry) : Option ℤ :=
  parseIntJS (attrString e.dataId)

/-- The `fetchOnScroll` callback as a state transition: given the captured
`fetchMore`, `itemRefIndex` and `fallBackRefIndex`, the current value of
the `lastItemIndex` ref and the entry batch, it returns the new
`lastItemIndex` and how many times `fetchNext()` was invoked.
Only `entries[0]` is ever read; the primary branch mutates
`lastItemIndex.current` before the fallback branch reads it. -/
def fetchOnScroll (fetchMore : Bool) (itemRefIndex fallBackIdx : ℤ)
    (lastItemIndex : Option ℤ) (entries : List IntersectionEntry) :
    Option ℤ × ℕ :=
  match entries with
  | [] => (lastItemIndex, 0)
  | e :: _ =>
    if e.isIntersecting && fetchMore then
      let eid := entryId e
      let primary : Option ℤ × ℕ :=
        if eid = some itemRefIndex then (eid, 1) else (lastItemIndex, 0)
      let fallbackCalls : ℕ :=
        if eid = some fallBackIdx ∧ primary.1 ≠ some itemRefIndex then 1 else 0
      (primary.1, primary.2 + fallbackCalls)
    else (lastItemIndex, 0)

/-- The observer configuration passed to `new IntersectionObserver`:
the `threshold` and `rootMargin` props forwarded unchanged. -/
structure IOConfig where
  threshold : Option ℚ := none
  rootMargin : Option String := none
deriving Repr, DecidableEq

/-- The observable state of one `IntersectionObserver` instance: its
construction config, the list of elements currently being observed
(elements are identified by a ℕ tag), and how many times `disconnect()`
has been called on it. -/
structure ObserverState where
  config : IOConfig
  watched : List ℕ
  disconnectCount : ℕ
deriving Repr, DecidableEq

/-- `observer.disconnect()`: stop watching everything. -/
def disconnectObs (o : ObserverState) : ObserverState :=
  { o with watched := [], disconnectCount := o.disconnectCount + 1 }

/-- `observer.observe(node)`. -/
def observeObs (o : ObserverState) (el : ℕ) : ObserverState :=
  { o with watched := o.watched ++ [el] }

/-- The body of the callback produced by `useIntersectionObserver`, called
with a node: `null` is a no-op; otherwise the slot's current observer (if
any) is disconnected, a fresh observer configured with `threshold` and
`rootMargin` is created, stored in the slot, and set to observe the node.
Returns the new slot contents together with the released prior observer's
final state (the returned cleanup closure, which disconnects the slot's
observer on unmount, is not needed by the claims below). -/
def attachNode (cfg : IOConfig) (slot : Option ObserverState)
    (node : Option ℕ) : Option ObserverState × Option ObserverState :=
  match node with
  | none => (slot, none)
  | some el =>
    let released := slot.map disconnectObs
    let fresh := observeObs { config := cfg, watched := [], disconnectCount := 0 } el
    (some fresh, released)

/-! ## Helper lemmas -/

/-- `Math.floor(numberOfItems * 0.5)` is integer division by 2
(the float product is exact, so rational semantics apply). -/
theorem getTriggerPointValue_fifty (N : ℕ) :
    getTriggerPointValue .fifty N = (N : ℤ) / 2 := by
  have h : ((N : ℚ) * 0.5) = (((N : ℤ) : ℤ) : ℚ) / ((2 : ℕ) : ℚ) := by
    push_cast
    ring_nf
  simp only [getTriggerPointValue]
  rw [h, Rat.floor_intCast_div_natCast]
  norm_num

/-- `Math.floor(numberOfItems * 0.75)` is `(3 * numberOfItems) / 4`
in integer division. -/
theorem getTriggerPointValue_seventyFive (N : ℕ) :
    getTriggerPointValue .seventyFive N = (3 * (N : ℤ)) / 4 := by
  have h : ((N : ℚ) * 0.75) = ((3 * (N : ℤ) : ℤ) : ℚ) / ((4 : ℕ) : ℚ) := by
    push_cast
    ring_nf
  simp only [getTriggerPointValue]
  rw [h, Rat.floor_intCast_div_natCast]
  norm_num

/-- When `triggerIndex` is absent or falsy, `if (triggerIndex)` is not
taken and `itemRefIndex` comes from the trigger-point table. -/
theorem resolveItemRefIndex_of_not_truthy (p : FetchOnScrollProps)
    (hti : truthyNum p.triggerIndex = false) :
    resolveItemRefIndex p =
      getTriggerPointValue (p.triggerPoint.getD .hundred) p.numberOfItems := by
  cases h : p.triggerIndex with
  | none => simp [resolveItemRefIndex, h]
  | some t =>
    have ht : ¬ t ≠ 0 := by
      have h2 := hti
      rw [h] at h2
      simpa [truthyNum] using h2
    simp [resolveItemRefIndex, h, ht]

/-! ## Claim theorems -/

/-- C1: when the first event of a non-empty batch is intersecting,
`fetchMore` is true, and the parsed `data-id` equals `itemRefIndex`,
the handler sets `lastItemIndex` to that index and invokes `fetchNext`
exactly once — also when `itemRefIndex = fallBackRefIndex`, since the
fallback guard reads the already-updated `lastItemIndex`. -/
theorem fetchOnScroll_primary_fires_once
    (itemIdx fallBackIdx : ℤ) (last : Option ℤ)
    (e : IntersectionEntry) (rest : List IntersectionEntry)
    (hint : e.isIntersecting = true)
    (hid : entryId e = some itemIdx) :
    fetchOnScroll true itemIdx fallBackIdx last (e :: rest) =
      (some itemIdx, 1) := by
  simp [fetchOnScroll, hint, hid]

/-- Witness for C1 at the aliased configuration `itemRefIndex =
fallBackRefIndex = 9` with an intersecting event carrying `data-id "9"`. -/
theorem fetchOnScroll_primary_fires_once_witness :
    fetchOnScroll true 9 9 none [⟨true, some "9"⟩] = (some 9, 1) :=
  fetchOnScroll_primary_fires_once 9 9 none ⟨true, some "9"⟩ [] rfl (by decide)

/-- C2: an intersecting first event parsing to `fallBackRefIndex`, with
`fetchMore` true and `lastItemIndex ≠ itemRefIndex` beforehand, invokes
`fetchNext`; concretely, for `numberOfItems = 10`, `triggerPoint = "75%"`
(`itemRefIndex = 7`, `fallBackRefIndex = 9`), an event with identifier
`"9"` and no prior primary firing yields exactly one invocation. -/
theorem fetchOnScroll_fallback_fires :
    (∀ (itemIdx fallBackIdx : ℤ) (last : Option ℤ) (e : IntersectionEntry)
        (rest : List IntersectionEntry),
      e.isIntersecting = true → entryId e = some fallBackIdx →
      last ≠ some itemIdx →
      0 < (fetchOnScroll true itemIdx fallBackIdx last (e :: rest)).2) ∧
    resolveItemRefIndex
        { numberOfItems := 10, triggerPoint := some .seventyFive } = 7 ∧
    fallBackRefIndex
        { numberOfItems := 10, triggerPoint := some .seventyFive } = 9 ∧
    fetchOnScroll true 7 9 none [⟨true, some "9"⟩] = (none, 1) := by
  refine ⟨?_, ?_, by decide, by decide⟩
  · intro itemIdx fallBackIdx last e rest hint hid hlast
    by_cases hfb : fallBackIdx = itemIdx
    · subst hfb
      simp [fetchOnScroll, hint, hid]
    · have hne : (some fallBackIdx : Option ℤ) ≠ some itemIdx := by
        simpa using hfb
      simp [fetchOnScroll, hint, hid, hne, hlast]
  · rw [resolveItemRefIndex_of_not_truthy _ (by decide)]
    simp [getTriggerPointValue_seventyFive]

/-- Witness for C2: the general fallback branch applied at the concrete
`75%`-of-10 configuration. -/
theorem fetchOnScroll_fallback_fires_witness :
    0 < (fetchOnScroll true 7 9 none [⟨true, some "9"⟩]).2 :=
  fetchOnScroll_fallback_fires.1 7 9 none ⟨true, some "9"⟩ [] rfl
    (by decide) (by decide)

/-- C7: an empty batch, a non-intersecting first event, or `fetchMore`
false each leave `lastItemIndex` unchanged and invoke `fetchNext` zero
times. -/
theorem fetchOnScroll_guards_noop (fm : Bool) (itemIdx fallBackIdx : ℤ)
    (last : Option ℤ) (entries : List IntersectionEntry)
    (h : entries = [] ∨
      (∃ e rest, entries = e :: rest ∧ e.isIntersecting = false) ∨
      fm = false) :
    fetchOnScroll fm itemIdx fallBackIdx last entries = (last, 0) := by
  rcases h with h | ⟨e, rest, rfl, he⟩ | rfl
  · subst h; rfl
  · simp [fetchOnScroll, he]
  · cases entries with
    | nil => rfl
    | cons e rest => simp [fetchOnScroll]

/-- Witness for C7: `fetchMore = false` with an intersecting matching
event does not fire. -/
theorem fetchOnScroll_guards_noop_witness :
    fetchOnScroll false 9 9 none [⟨true, some "9"⟩] = (none, 0) :=
  fetchOnScroll_guards_noop false 9 9 none [⟨true, some "9"⟩]
    (Or.inr (Or.inr rfl))

/-- C9: an intersecting first event (with `fetchMore` true) whose
identifier attribute does not parse to a number yields a parse result
matching neither `itemRefIndex` nor `fallBackRefIndex`; the handler
invokes `fetchNext` zero times and leaves `lastItemIndex` unchanged. -/
theorem fetchOnScroll_nonnumeric_ignored
    (itemIdx fallBackIdx : ℤ) (last : Option ℤ) (e : IntersectionEntry)
    (rest : List IntersectionEntry) (s : String)
    (hattr : e.dataId = some s) (hparse : parseIntJS s = none)
    (hint : e.isIntersecting = true) :
    entryId e ≠ some itemIdx ∧ entryId e ≠ some fallBackIdx ∧
    fetchOnScroll true itemIdx fallBackIdx last (e :: rest) = (last, 0) := by
  have heid : entryId e = none := by
    simp [entryId, attrString, hattr, hparse]
  exact ⟨by simp [heid], by simp [heid],
    by simp [fetchOnScroll, hint, heid]⟩

/-- Witness for C9: the non-numeric identifier `"abc"` at the default
configuration for ten items. -/
theorem fetchOnScroll_nonnumeric_ignored_witness :
    entryId ⟨true, some "abc"⟩ ≠ some 9 ∧
    entryId ⟨true, some "abc"⟩ ≠ some 9 ∧
    fetchOnScroll true 9 9 none [⟨true, some "abc"⟩] = (none, 0) :=
  fetchOnScroll_nonnumeric_ignored 9 9 none ⟨true, some "abc"⟩ [] "abc"
    rfl (by decide) rfl

/-- C10: the handler only examines the first event of a batch — the
result is independent of the remaining events — and when the first event
is non-intersecting or matches neither index, `fetchNext` is not invoked
even if a later event in the same batch would have matched. -/
theorem fetchOnScroll_first_entry_only
    (fm : Bool) (itemIdx fallBackIdx : ℤ) (last : Option ℤ)
    (e : IntersectionEntry) (rest rest2 : List IntersectionEntry) :
    fetchOnScroll fm itemIdx fallBackIdx last (e :: rest) =
      fetchOnScroll fm itemIdx fallBackIdx last (e :: rest2) ∧
    ((e.isIntersecting = false ∨
        (entryId e ≠ some itemIdx ∧ entryId e ≠ some fallBackIdx)) →
      fetchOnScroll fm itemIdx fallBackIdx last (e :: rest) = (last, 0)) := by
  constructor
  · rfl
  · rintro (he | ⟨h1, h2⟩)
    · simp [fetchOnScroll, he]
    · cases fm with
      | false => simp [fetchOnScroll]
      | true =>
        cases hi : e.isIntersecting with
        | false => simp [fetchOnScroll, hi]
        | true => simp [fetchOnScroll, hi, h1, h2]

/-- Witness for C10: a non-matching first event with `data-id "3"`
suppresses the fetch although the second event in the batch is an
intersecting one at the primary index 7. -/
theorem fetchOnScroll_first_entry_only_witness :
    fetchOnScroll true 7 9 none [⟨true, some "3"⟩, ⟨true, some "7"⟩] =
      (none, 0) :=
  (fetchOnScroll_first_entry_only true 7 9 none ⟨true, some "3"⟩
    [⟨true, some "7"⟩] []).2 (Or.inr ⟨by decide, by decide⟩)

/-- C8: calling an attachment handle with a concrete element stores in
the slot exactly one fresh observer built from the current `threshold`
and `rootMargin` watching exactly that element, and any prior observer
owned by the slot is released via `disconnect` (its watch list emptied,
its disconnect count incremented). -/
theorem attachNode_replaces_observer (cfg : IOConfig)
    (slot : Option ObserverState) (el : ℕ) :
    ((attachNode cfg slot (some el)).1 =
      some { config := cfg, watched := [el], disconnectCount := 0 }) ∧
    (∀ prior, slot = some prior →
      (attachNode cfg slot (some el)).2 = some (disconnectObs prior) ∧
      (disconnectObs prior).watched = [] ∧
      (disconnectObs prior).disconnectCount = prior.disconnectCount + 1) ∧
    (slot = none → (attachNode cfg slot (some el)).2 = none) := by
  refine ⟨by simp [attachNode, observeObs], ?_, ?_⟩
  · rintro prior rfl
    exact ⟨by simp [attachNode], rfl, rfl⟩
  · rintro rfl
    rfl

/-- Witness for C8: reattaching element 5 to a slot that is already
watching element 3 replaces and disconnects the prior observer. -/
theorem attachNode_replaces_observer_witness :
    (attachNode { threshold := some 0.5, rootMargin := some "10px" }
        (some { config := {}, watched := [3], disconnectCount := 0 })
        (some 5)).2 =
      some (disconnectObs
        { config := {}, watched := [3], disconnectCount := 0 }) ∧
    (disconnectObs
        { config := {}, watched := [3], disconnectCount := 0 }).watched = [] ∧
    (disconnectObs
        { config := {}, watched := [3], disconnectCount := 0 }).disconnectCount =
      ({ config := {}, watched := [3], disconnectCount := 0 } :
        ObserverState).disconnectCount + 1 :=
  ((attachNode_replaces_observer
      { threshold := some 0.5, rootMargin := some "10px" }
      (some { config := {}, watched := [3], disconnectCount := 0 }) 5).2.1
    { config := {}, watched := [3], disconnectCount := 0 } rfl)

/-- C3: with a positive item count and no truthy `triggerIndex`, the
resolved `itemRefIndex` follows the trigger-point table:
`floor(0.5 * N)` for `"50%"`, `floor(0.75 * N)` for `"75%"`, and
`N - 1` for `"100%"`, which is also the default. -/
theorem itemRefIndex_triggerPoint_table (p : FetchOnScrollProps)
    (_hN : 0 < p.numberOfItems) (hti : truthyNum p.triggerIndex = false) :
    (p.triggerPoint = some .fifty →
      resolveItemRefIndex p = Int.floor ((0.5 : ℚ) * p.numberOfItems)) ∧
    (p.triggerPoint = some .seventyFive →
      resolveItemRefIndex p = Int.floor ((0.75 : ℚ) * p.numberOfItems)) ∧
    ((p.triggerPoint = some .hundred ∨ p.triggerPoint = none) →
      resolveItemRefIndex p = (p.numberOfItems : ℤ) - 1) := by
  rw [resolveItemRefIndex_of_not_truthy p hti]
  refine ⟨?_, ?_, ?_⟩
  · intro h
    simp [h, getTriggerPointValue, mul_comm]
  · intro h
    simp [h, getTriggerPointValue, mul_comm]
  · rintro (h | h) <;> simp [h, getTriggerPointValue]

/-- Witness for C3 at `numberOfItems = 10`, `triggerPoint = "75%"`. -/
theorem itemRefIndex_triggerPoint_table_witness :
    resolveItemRefIndex { numberOfItems := 10, triggerPoint := some .seventyFive } =
      Int.floor ((0.75 : ℚ) *
        (({ numberOfItems := 10, triggerPoint := some .seventyFive } :
          FetchOnScrollProps).numberOfItems : ℚ)) :=
  (itemRefIndex_triggerPoint_table
    { numberOfItems := 10, triggerPoint := some .seventyFive }
    (by decide) (by decide)).2.1 rfl

/-- C4: a supplied truthy `triggerIndex` overrides any `triggerPoint`
and resolves to `Math.floor(triggerIndex)` with no clamping, while an
absent or zero `triggerIndex` falls back to the trigger-point table. -/
theorem triggerIndex_override (p : FetchOnScrollProps) :
    (∀ t : ℚ, p.triggerIndex = some t → t ≠ 0 →
      resolveItemRefIndex p = Int.floor t) ∧
    ((p.triggerIndex = none ∨ p.triggerIndex = some 0) →
      resolveItemRefIndex p =
        getTriggerPointValue (p.triggerPoint.getD .hundred) p.numberOfItems) := by
  constructor
  · intro t h ht
    simp [resolveItemRefIndex, h, ht]
  · intro h
    apply resolveItemRefIndex_of_not_truthy
    rcases h with h | h <;> simp [truthyNum, h]

/-- Witness for C4: `triggerIndex = 3` overrides the default `"100%"`
trigger point for ten items. -/
theorem triggerIndex_override_witness :
    resolveItemRefIndex { numberOfItems := 10, triggerIndex := some 3 } =
      Int.floor (3 : ℚ) :=
  (triggerIndex_override { numberOfItems := 10, triggerIndex := some 3 }).1
    3 rfl (by decide)

/-- C5 (counterexample to the stated range invariant): with
`numberOfItems = 10` and `triggerIndex = 15`, the resolved
`itemRefIndex` is 15, outside `[0, numberOfItems)` — the override is
not clamped. -/
theorem itemRefIndex_range_counterexample :
    ¬ (0 ≤ resolveItemRefIndex { numberOfItems := 10, triggerIndex := some 15 } ∧
       resolveItemRefIndex { numberOfItems := 10, triggerIndex := some 15 } <
         (({ numberOfItems := 10, triggerIndex := some 15 } :
           FetchOnScrollProps).numberOfItems : ℤ)) := by
  have h : resolveItemRefIndex
      { numberOfItems := 10, triggerIndex := some 15 } = 15 := by
    norm_num [resolveItemRefIndex]
  rw [h]
  decide

/-- C5 (amended): with a positive item count, whenever no truthy
`triggerIndex` override is supplied, the resolved `itemRefIndex` lies in
`[0, numberOfItems)`. -/
theorem itemRefIndex_in_range_of_no_override (p : FetchOnScrollProps)
    (hN : 0 < p.numberOfItems) (hti : truthyNum p.triggerIndex = false) :
    0 ≤ resolveItemRefIndex p ∧
      resolveItemRefIndex p < (p.numberOfItems : ℤ) := by
  rw [resolveItemRefIndex_of_not_truthy p hti]
  cases h : p.triggerPoint.getD .hundred with
  | fifty => rw [getTriggerPointValue_fifty]; omega
  | seventyFive => rw [getTriggerPointValue_seventyFive]; omega
  | hundred => simp only [getTriggerPointValue]; omega

/-- Witness for the amended C5 at the default configuration with ten
items. -/
theorem itemRefIndex_in_range_of_no_override_witness :
    0 ≤ resolveItemRefIndex { numberOfItems := 10 } ∧
      resolveItemRefIndex { numberOfItems := 10 } <
        (({ numberOfItems := 10 } : FetchOnScrollProps).numberOfItems : ℤ) :=
  itemRefIndex_in_range_of_no_override { numberOfItems := 10 }
    (by decide) (by decide)

/-- C6 (counterexample to "collapse exactly when the resolved trigger
index equals the last index or no distinct trigger was requested"):
with `numberOfItems = 2` and `triggerPoint = "50%"`, the resolved index
`floor(2 * 0.5) = 1` equals the last index `1`, yet the two slots keep
distinct observer instances, because the aliasing test only inspects
the raw `triggerPoint` and `triggerIndex`. -/
theorem sharesObserver_counterexample :
    resolveItemRefIndex { numberOfItems := 2, triggerPoint := some .fifty } =
      fallBackRefIndex { numberOfItems := 2, triggerPoint := some .fifty } ∧
    sharesObserver { numberOfItems := 2, triggerPoint := some .fifty } =
      false := by
  constructor
  · rw [resolveItemRefIndex_of_not_truthy _ (by decide)]
    simp only [Option.getD_some]
    rw [getTriggerPointValue_fifty]
    decide
  · decide

/-- C6 (amended): the two slots share one observer instance exactly when
the (defaulted) `triggerPoint` is `"100%"` or the raw supplied
`triggerIndex` strictly equals `fallBackRefIndex = numberOfItems - 1`. -/
theorem sharesObserver_iff (p : FetchOnScrollProps) :
    sharesObserver p = true ↔
      (p.triggerPoint.getD .hundred = .hundred ∨
        p.triggerIndex = some ((fallBackRefIndex p : ℤ) : ℚ)) := by
  cases h : p.triggerIndex with
  | none => simp [sharesObserver, tpTruthy, h]
  | some t => simp [sharesObserver, tpTruthy, h]
